import Mathlib

/-!
Verification of the data-ingestion core of `train.py`: the `Sample`
validated container, the `DataScaler` feature-scaling catalog, the
`floatify` structured-record-to-matrix conversion, and the
`load_input_file` orchestrator.

Scalar values carried by the pipeline are 64-bit floats in the source;
no arithmetic is ever performed on them by the code under study (they are
only stored, copied and compared), so they are modelled exactly by `Rat`.
NumPy dtypes are modelled by the `DType` tag carried on each matrix.
Python exceptions are modelled by `Except`/`Option` results, and the
list-versus-ndarray distinction of the catalog's accumulator fields
(an ndarray has no `append` method) is modelled by the `PyVec` sum.
-/

/-- NumPy element types, as far as the program distinguishes them:
`float64` and everything else. A few concrete non-float64 tags are kept so
that error messages can name the actual type found. -/
inductive DType where
  | float64
  | float32
  | int64
deriving DecidableEq, Repr

/-- Rendering of a dtype, as it would appear interpolated into a message. -/
def DType.render : DType → String
  | .float64 => "float64"
  | .float32 => "float32"
  | .int64 => "int64"

/-- A dense NumPy array: an element type together with its rows.
Models the `input_data` matrix handed to `Sample`. -/
structure NDMatrix where
  dtype : DType
  rows : List (List Rat)
deriving DecidableEq, Repr

/-- Column `j` of a dense matrix (out-of-range entries default to 0;
theorems only use in-range indices). -/
def NDMatrix.col (m : NDMatrix) (j : Nat) : List Rat :=
  m.rows.map (fun row => row.getD j 0)

/-- A NumPy structured array: named fields and, per row, one scalar per
field (positionally aligned with `fields`). -/
structure StructuredArray where
  fields : List String
  rows : List (List Rat)
deriving DecidableEq, Repr

/-- The column of the field with the given name (first occurrence;
field names of a real structured array are distinct). -/
def StructuredArray.fieldCol (sa : StructuredArray) (n : String) : List Rat :=
  sa.rows.map (fun row => row.getD (sa.fields.indexOf n) 0)

/-- One record of the `scaling/scaling_data` table: a feature name and its
mean/scale/var scaling statistics. -/
structure ScalingRecord where
  name : String
  mean : Rat
  scale : Rat
  var : Rat
deriving DecidableEq, Repr

/-- The per-feature record stored in the catalog's scaling dictionary. -/
structure ScalingParams where
  mean : Rat
  scale : Rat
  var : Rat
deriving DecidableEq, Repr

/-- A Python value that is either still a `list` (supports `append`) or has
been replaced by a NumPy `ndarray` via `np.array(...)` (no `append`). -/
inductive PyVec where
  | list (l : List Rat)
  | arr (l : List Rat)
deriving DecidableEq, Repr

/-- The elements held, regardless of list/array status. -/
def PyVec.toList : PyVec → List Rat
  | .list l => l
  | .arr l => l

/-- The message of the AttributeError raised by `ndarray.append`. -/
def ndarrayNoAppendMsg : String :=
  "AttributeError: \x27numpy.ndarray\x27 object has no attribute \x27append\x27"

/-- `v.append x`: succeeds on a list, raises AttributeError on an ndarray. -/
def PyVec.push : PyVec → Rat → Except String PyVec
  | .list l, x => .ok (.list (l ++ [x]))
  | .arr _, _ => .error ndarrayNoAppendMsg

/-- Python `dict` lookup on an insertion-ordered association list. -/
def dictGet? (k : String) : List (String × ScalingParams) → Option ScalingParams
  | [] => none
  | (k', v) :: rest => if k' = k then some v else dictGet? k rest

/-- Python `d[k] = v`: replace in place if the key exists, else append. -/
def dictInsert (k : String) (v : ScalingParams) :
    List (String × ScalingParams) → List (String × ScalingParams)
  | [] => [(k, v)]
  | (k', v') :: rest =>
    if k' = k then (k', v) :: rest else (k', v') :: dictInsert k v rest

/-- The mutable state of a `DataScaler` object (fields `self._*`). -/
structure DataScaler where
  raw_feature_list : List String
  feature_list : List String
  scaling_dict : List (String × ScalingParams)
  mean : PyVec
  scale : PyVec
  var : PyVec
deriving DecidableEq, Repr

/-- The record-iteration loop of `DataScaler.load` (train.py lines
105-111): skip ignored names; otherwise store the triad in the dict and
append each value to the three accumulators. An AttributeError from an
append aborts the loop, leaving the mutations made so far in place. -/
def loadLoop (ignore_features : List String) :
    DataScaler → List ScalingRecord → DataScaler × Option String
  | s, [] => (s, none)
  | s, x :: rest =>
    if x.name ∈ ignore_features then
      loadLoop ignore_features s rest
    else
      let s1 := { s with
        scaling_dict := dictInsert x.name ⟨x.mean, x.scale, x.var⟩ s.scaling_dict }
      match s1.mean.push x.mean with
      | .error e => (s1, some e)
      | .ok m =>
        let s2 := { s1 with mean := m }
        match s2.scale.push x.scale with
        | .error e => (s2, some e)
        | .ok c =>
          let s3 := { s2 with scale := c }
          match s3.var.push x.var with
          | .error e => (s3, some e)
          | .ok v => loadLoop ignore_features { s3 with var := v } rest

/-- The first two statements of `DataScaler.load` (train.py lines 97-98):
reassign `raw_feature_list` and `feature_list` on the object. -/
def loadPrep (self : DataScaler) (scaling_dataset : List ScalingRecord)
    (ignore_features : List String) : DataScaler :=
  { self with
    raw_feature_list := scaling_dataset.map (·.name),
    feature_list :=
      (scaling_dataset.map (·.name)).filter (fun x => x ∉ ignore_features) }

/-- `DataScaler.load` (train.py lines 95-115): reassign
`raw_feature_list` and `feature_list` via `loadPrep`, run the record
loop, then convert the three accumulators to fixed float64 arrays. The
second component is the raised exception message, if any; the first is
the object state after the call (partial mutations survive an exception,
as `self` is mutated in place). -/
def DataScaler.load (self : DataScaler) (scaling_dataset : List ScalingRecord)
    (ignore_features : List String) : DataScaler × Option String :=
  match loadLoop ignore_features (loadPrep self scaling_dataset ignore_features)
      scaling_dataset with
  | (s, some e) => (s, some e)
  | (s, none) =>
    ({ s with
        mean := .arr s.mean.toList,
        scale := .arr s.scale.toList,
        var := .arr s.var.toList }, none)

/-- The `DataScaler` constructor (train.py lines 77-93): initialize every
field empty, then call `load`. -/
def DataScaler.init (scaling_dataset : List ScalingRecord)
    (ignore_features : List String) : DataScaler × Option String :=
  DataScaler.load ⟨[], [], [], .list [], .list [], .list []⟩
    scaling_dataset ignore_features

/-- Message of the KeyError raised by `get_params` (train.py line 129). -/
def unknownFeatureMsg (feature : String) : String :=
  "requested feature (=" ++ feature ++ ") not found in set of scaling features"

/-- `DataScaler.get_params` (train.py lines 126-129). -/
def DataScaler.get_params (self : DataScaler) (feature : String) :
    Except String ScalingParams :=
  match dictGet? feature self.scaling_dict with
  | some p => .ok p
  | none => .error (unknownFeatureMsg feature)

/-- The exceptions `Sample.__init__` can raise. -/
inductive SampleError where
  | typeMismatch (msg : String)
  | invalidLabel (msg : String)
  | attributeError (msg : String)
deriving DecidableEq, Repr

/-- Message of the type-mismatch Exception (train.py line 46). -/
def typeMismatchMsg (found : DType) : String :=
  "ERROR Sample input data must be type \x27np.float64\x27, input is \x27"
    ++ found.render ++ "\x27"

/-- Message of the label ValueError (train.py line 49; the format string
has a single slot, so only the name is interpolated). -/
def invalidLabelMsg (n : String) : String :=
  "ERROR Sample (=" ++ n ++ ")class label is not set (<0)"

/-- Message of the AttributeError from dereferencing `None.dtype`. -/
def noneDtypeMsg : String :=
  "AttributeError: \x27NoneType\x27 object has no attribute \x27dtype\x27"

/-- A successfully constructed `Sample` (train.py lines 51-53). -/
structure Sample where
  name : String
  class_label : Int
  input_data : NDMatrix
deriving DecidableEq, Repr

/-- `Sample.__init__` (train.py lines 32-53) with the source's default
arguments: dereference `input_data.dtype` (AttributeError when the
default `None` was left in place), check the dtype is exactly float64,
check the class label is non-negative, then store the three fields. -/
def Sample.init (name : String := "") (class_label : Int := -1)
    (input_data : Option NDMatrix := none) : Except SampleError Sample :=
  match input_data with
  | none => .error (.attributeError noneDtypeMsg)
  | some d =>
    if d.dtype ≠ DType.float64 then
      .error (.typeMismatch (typeMismatchMsg d.dtype))
    else if class_label < 0 then
      .error (.invalidLabel (invalidLabelMsg name))
    else
      .ok ⟨name, class_label, d⟩

/-- Accessor `Sample.data` (train.py lines 59-60); `Sample.name` and
`Sample.class_label` are the field projections themselves. -/
def Sample.data (s : Sample) : NDMatrix := s.input_data

/-- Field selection `structured_array[tuple(names)]` on a structured
array: the named fields, in the requested order; fails (KeyError) when a
requested field does not exist. -/
def selectFields (sa : StructuredArray) (names : List String) :
    Option StructuredArray :=
  if names.all (fun n => sa.fields.contains n) then
    some { fields := names,
           rows := sa.rows.map (fun row =>
             names.map (fun n => row.getD (sa.fields.indexOf n) 0)) }
  else
    none

/-- `floatify` (train.py lines 138-140): cast every field named in
`feature_list` to float64 and lay the fields out as the trailing
dimension, giving an n-by-k float64 matrix; fails when a named field is
absent from the input array. -/
def floatify (input_array : StructuredArray) (feature_list : List String) :
    Option NDMatrix :=
  if feature_list.all (fun n => input_array.fields.contains n) then
    some { dtype := .float64,
           rows := input_array.rows.map (fun row =>
             feature_list.map (fun n =>
               row.getD (input_array.fields.indexOf n) 0)) }
  else
    none

/-- One sample sub-group under `samples/`: its `training_label` attribute
and its `train_features` structured table. -/
structure ProcessGroup where
  training_label : Int
  train_features : StructuredArray
deriving DecidableEq, Repr

/-- The relevant contents of the input HDF5 container: the
`scaling/scaling_data` table when the `scaling` group exists, and the
named sub-groups of `samples` when that group exists. -/
structure H5File where
  scaling_data : Option (List ScalingRecord)
  samples : Option (List (String × ProcessGroup))
deriving DecidableEq, Repr

/-- The ways `load_input_file` can fail: the `sys.exit()` paths for a
missing file or missing required group, and propagated exceptions. -/
inductive LoadError where
  | missingFile
  | missingScaling
  | missingSamples
  | scalerError (e : String)
  | fieldSelectError (p : String)
  | sampleError (e : SampleError)
deriving DecidableEq, Repr

/-- The per-sample loop of `load_input_file` (train.py lines 183-188):
for each sub-group, select the catalog's features from `train_features`,
run `floatify`, and construct a `Sample`; any failure propagates. -/
def buildSamples (data_scaler : DataScaler) :
    List (String × ProcessGroup) → Except LoadError (List Sample)
  | [] => .ok []
  | (p, g) :: rest =>
    match selectFields g.train_features data_scaler.feature_list with
    | none => .error (.fieldSelectError p)
    | some sel =>
      match floatify sel data_scaler.feature_list with
      | none => .error (.fieldSelectError p)
      | some m =>
        match Sample.init p g.training_label (some m) with
        | .error e => .error (.sampleError e)
        | .ok s => (buildSamples data_scaler rest).map (fun ss => s :: ss)

/-- `load_input_file` (train.py lines 142-194). The argument is `none`
when `args.input` is not an existing regular file. The `scaling` group is
required first (building the catalog with the fixed exclusion set
`["eventweight"]`), then the `samples` group; each `sys.exit()` path is an
error and no sample list is returned on any failure. -/
def load_input_file (input : Option H5File) :
    Except LoadError (List Sample × DataScaler) :=
  match input with
  | none => .error .missingFile
  | some f =>
    match f.scaling_data with
    | none => .error .missingScaling
    | some sd =>
      match DataScaler.init sd (["eventweight"]) with
      | (_, some e) => .error (.scalerError e)
      | (data_scaler, none) =>
        match f.samples with
        | none => .error .missingSamples
        | some groups =>
          (buildSamples data_scaler groups).map (fun ss => (ss, data_scaler))

/-! ### Helper lemmas about the dictionary model -/

theorem dictGet?_insert_ne (k k' : String) (v : ScalingParams)
    (d : List (String × ScalingParams)) (h : k' ≠ k) :
    dictGet? k (dictInsert k' v d) = dictGet? k d := by
  induction d with
  | nil => simp [dictInsert, dictGet?, h]
  | cons p rest ih =>
    obtain ⟨a, b⟩ := p
    by_cases ha : a = k'
    · subst ha
      simp [dictInsert, dictGet?, h]
    · simp [dictInsert, dictGet?, ha, ih]

theorem dictGet?_append (k : String) (d1 d2 : List (String × ScalingParams)) :
    dictGet? k (d1 ++ d2) =
      match dictGet? k d1 with
      | some v => some v
      | none => dictGet? k d2 := by
  induction d1 with
  | nil => simp [dictGet?]
  | cons p rest ih =>
    obtain ⟨a, b⟩ := p
    by_cases ha : a = k <;> simp [dictGet?, ha, ih]

theorem dictInsert_of_absent (k : String) (v : ScalingParams)
    (d : List (String × ScalingParams)) (h : dictGet? k d = none) :
    dictInsert k v d = d ++ [(k, v)] := by
  induction d with
  | nil => rfl
  | cons p rest ih =>
    obtain ⟨a, b⟩ := p
    by_cases ha : a = k
    · simp [dictGet?, ha] at h
    · simp [dictGet?, ha] at h
      simp [dictInsert, ha, ih h]

theorem dictGet?_foldl_of_absent (k : String) (rs : List ScalingRecord)
    (d : List (String × ScalingParams)) (h : k ∉ rs.map (·.name)) :
    dictGet? k (rs.foldl
      (fun dd x => dictInsert x.name ⟨x.mean, x.scale, x.var⟩ dd) d) =
      dictGet? k d := by
  induction rs generalizing d with
  | nil => rfl
  | cons x rest ih =>
    simp only [List.map_cons, List.mem_cons, not_or] at h
    rw [List.foldl_cons, ih _ h.2,
      dictGet?_insert_ne _ _ _ _ (fun he => h.1 he.symm)]

theorem foldl_insert_fresh (rs : List ScalingRecord)
    (d : List (String × ScalingParams))
    (hnodup : (rs.map (·.name)).Nodup)
    (hfresh : ∀ x ∈ rs, dictGet? x.name d = none) :
    rs.foldl (fun dd x => dictInsert x.name ⟨x.mean, x.scale, x.var⟩ dd) d =
      d ++ rs.map (fun x => (x.name, (⟨x.mean, x.scale, x.var⟩ : ScalingParams))) := by
  induction rs generalizing d with
  | nil => simp
  | cons x rest ih =>
    rw [List.foldl_cons, dictInsert_of_absent _ _ _ (hfresh x (by simp))]
    rw [List.map_cons, List.nodup_cons] at hnodup
    rw [ih _ hnodup.2]
    · simp
    · intro y hy
      rw [dictGet?_append, hfresh y (List.mem_cons_of_mem _ hy)]
      have hne : x.name ≠ y.name := fun he => hnodup.1 (he ▸ List.mem_map_of_mem _ hy)
      simp [dictGet?, hne]

theorem dictGet?_map_of_nodup (rs : List ScalingRecord)
    (hnodup : (rs.map (·.name)).Nodup) (x : ScalingRecord) (hx : x ∈ rs) :
    dictGet? x.name
      (rs.map (fun y => (y.name, (⟨y.mean, y.scale, y.var⟩ : ScalingParams)))) =
      some ⟨x.mean, x.scale, x.var⟩ := by
  induction rs with
  | nil => cases hx
  | cons y rest ih =>
    rw [List.map_cons, List.nodup_cons] at hnodup
    rcases List.mem_cons.mp hx with rfl | hx
    · simp [dictGet?]
    · have hne : y.name ≠ x.name := fun he => hnodup.1 (he ▸ List.mem_map_of_mem _ hx)
      simp [dictGet?, hne, ih hnodup.2 hx]

/-! ### Helper lemmas about `loadLoop` and `DataScaler.init` -/

theorem loadLoop_list (ign : List String) (rl fl : List String)
    (d : List (String × ScalingParams)) (m c v : List Rat)
    (rs : List ScalingRecord) :
    loadLoop ign ⟨rl, fl, d, .list m, .list c, .list v⟩ rs =
      (⟨rl, fl,
        (rs.filter (fun x => x.name ∉ ign)).foldl
          (fun dd x => dictInsert x.name ⟨x.mean, x.scale, x.var⟩ dd) d,
        .list (m ++ (rs.filter (fun x => x.name ∉ ign)).map (·.mean)),
        .list (c ++ (rs.filter (fun x => x.name ∉ ign)).map (·.scale)),
        .list (v ++ (rs.filter (fun x => x.name ∉ ign)).map (·.var))⟩, none) := by
  induction rs generalizing d m c v with
  | nil => simp [loadLoop]
  | cons x rest ih =>
    by_cases hx : x.name ∈ ign
    · simp [loadLoop, hx, ih]
    · simp [loadLoop, hx, PyVec.push, ih]

theorem init_eq (ds : List ScalingRecord) (ign : List String) :
    DataScaler.init ds ign =
      (⟨ds.map (·.name),
        (ds.map (·.name)).filter (fun x => x ∉ ign),
        (ds.filter (fun x => x.name ∉ ign)).foldl
          (fun dd x => dictInsert x.name ⟨x.mean, x.scale, x.var⟩ dd) [],
        .arr ((ds.filter (fun x => x.name ∉ ign)).map (·.mean)),
        .arr ((ds.filter (fun x => x.name ∉ ign)).map (·.scale)),
        .arr ((ds.filter (fun x => x.name ∉ ign)).map (·.var))⟩, none) := by
  simp [DataScaler.init, DataScaler.load, loadPrep, loadLoop_list, PyVec.toList]

theorem map_name_filter (ds : List ScalingRecord) (ign : List String) :
    (ds.filter (fun x => x.name ∉ ign)).map (·.name) =
      (ds.map (·.name)).filter (fun x => x ∉ ign) := by
  induction ds with
  | nil => rfl
  | cons x rest ih =>
    simp only [decide_not] at ih ⊢
    by_cases hx : x.name ∈ ign <;> simp [hx, ih]

theorem loadLoop_preserves_lists (ign : List String) (rs : List ScalingRecord)
    (s : DataScaler) :
    (loadLoop ign s rs).1.raw_feature_list = s.raw_feature_list ∧
    (loadLoop ign s rs).1.feature_list = s.feature_list := by
  induction rs generalizing s with
  | nil => simp [loadLoop]
  | cons x rest ih =>
    by_cases hx : x.name ∈ ign
    · simpa [loadLoop, hx] using ih s
    · simp only [loadLoop, hx, if_false]
      cases hm : PyVec.push s.mean x.mean with
      | error e => simp
      | ok m =>
        cases hc : PyVec.push s.scale x.scale with
        | error e => simp
        | ok c =>
          cases hv : PyVec.push s.var x.var with
          | error e => simp
          | ok v => simpa using ih _

theorem loadLoop_arr_error (ign : List String) (m : List Rat)
    (rs : List ScalingRecord) (s : DataScaler) (hs : s.mean = .arr m)
    (hr : ∃ r ∈ rs, r.name ∉ ign) :
    (loadLoop ign s rs).2 = some ndarrayNoAppendMsg := by
  induction rs generalizing s with
  | nil => simp at hr
  | cons x rest ih =>
    by_cases hx : x.name ∈ ign
    · have hr' : ∃ r ∈ rest, r.name ∉ ign := by
        rcases hr with ⟨r, hrm, hrn⟩
        rcases List.mem_cons.mp hrm with rfl | hrm
        · exact absurd hx hrn
        · exact ⟨r, hrm, hrn⟩
      simpa [loadLoop, hx] using ih _ hs hr'
    · simp [loadLoop, hx, hs, PyVec.push]

theorem load_arr_error (s : DataScaler) (m : List Rat) (hs : s.mean = .arr m)
    (ds : List ScalingRecord) (ign : List String)
    (r : ScalingRecord) (hr : r ∈ ds) (hret : r.name ∉ ign) :
    (s.load ds ign).2 = some ndarrayNoAppendMsg ∧
    (s.load ds ign).1.raw_feature_list = ds.map (·.name) ∧
    (s.load ds ign).1.feature_list =
      (ds.map (·.name)).filter (fun x => x ∉ ign) := by
  have hmean : (loadPrep s ds ign).mean = .arr m := hs
  have h2 := loadLoop_arr_error ign m ds (loadPrep s ds ign) hmean ⟨r, hr, hret⟩
  have hp := loadLoop_preserves_lists ign ds (loadPrep s ds ign)
  unfold DataScaler.load
  cases hL : loadLoop ign (loadPrep s ds ign) ds with
  | mk s' e =>
    rw [hL] at h2 hp
    simp only at h2
    subst h2
    refine ⟨rfl, ?_, ?_⟩
    · simpa [loadPrep] using hp.1
    · simpa [loadPrep] using hp.2

/-! ### Concrete data used in witness checks (the container of spec §8) -/

/-- The example `scaling/scaling_data` table. -/
def exScaling : List ScalingRecord :=
  [⟨"pt", 50, 10, 100⟩, ⟨"eta", 0, 1, 1⟩, ⟨"eventweight", 1, 1, 1⟩]

/-- The example `samples/signal` sub-group: `training_label = 1` and a
`train_features` table with three feature columns over 3 events. -/
def exSignal : ProcessGroup :=
  ⟨1, ⟨["pt", "eta", "eventweight"],
       [[40, 1/2, 1], [55, -1, 1], [60, 3/2, 1]]⟩⟩

/-- The example container. -/
def exFile : H5File := ⟨some exScaling, some [("signal", exSignal)]⟩

/-- The example `train_features` table already restricted to the two
retained features, as the loader restricts it before `floatify`. -/
def exSel : StructuredArray :=
  ⟨["pt", "eta"], [[40, 1/2], [55, -1], [60, 3/2]]⟩

/-! ### Claims -/

/-- C4: `Sample` construction validates in the stated order: a matrix
whose element type is not exactly float64 fails with the type-mismatch
error naming the actual dtype found, regardless of the class label; a
float64 matrix with a negative label fails with the invalid-label error
naming the sample; in both cases the result is an error, so no `Sample`
object is created. -/
theorem C4_sample_validation_order (n : String) (label : Int) (d : NDMatrix) :
    (d.dtype ≠ DType.float64 →
      Sample.init n label (some d) =
        .error (.typeMismatch (typeMismatchMsg d.dtype))) ∧
    (d.dtype = DType.float64 → label < 0 →
      Sample.init n label (some d) =
        .error (.invalidLabel (invalidLabelMsg n))) := by
  constructor
  · intro h
    simp [Sample.init, h]
  · intro h hl
    simp [Sample.init, h, hl]

theorem C4_witness :
    Sample.init ("s") 5 (some ⟨DType.float32, [[1]]⟩) =
      .error (.typeMismatch (typeMismatchMsg DType.float32)) ∧
    Sample.init ("s") (-1) (some ⟨DType.float64, [[1]]⟩) =
      .error (.invalidLabel (invalidLabelMsg ("s"))) :=
  ⟨(C4_sample_validation_order ("s") 5 ⟨DType.float32, [[1]]⟩).1 (by decide),
   (C4_sample_validation_order ("s") (-1) ⟨DType.float64, [[1]]⟩).2 rfl (by decide)⟩

/-- C8: a successfully constructed `Sample` returns exactly the
constructor arguments through `name`, `class_label` and `data`; the
embedding is a pure value, so nothing can mutate the stored fields after
construction. -/
theorem C8_sample_accessors (n : String) (label : Int) (d : NDMatrix)
    (s : Sample) (h : Sample.init n label (some d) = .ok s) :
    s.name = n ∧ s.class_label = label ∧ s.data = d := by
  simp only [Sample.init] at h
  split_ifs at h with h1 h2
  injection h with hok
  subst hok
  exact ⟨rfl, rfl, rfl⟩

theorem C8_witness :
    ((⟨"sig", 2, ⟨DType.float64, [[1, 2]]⟩⟩ : Sample).name = "sig") ∧
    ((⟨"sig", 2, ⟨DType.float64, [[1, 2]]⟩⟩ : Sample).class_label = 2) ∧
    ((⟨"sig", 2, ⟨DType.float64, [[1, 2]]⟩⟩ : Sample).data =
      ⟨DType.float64, [[1, 2]]⟩) :=
  C8_sample_accessors ("sig") 2 ⟨DType.float64, [[1, 2]]⟩
    ⟨"sig", 2, ⟨DType.float64, [[1, 2]]⟩⟩ rfl

/-- C10: constructing a `Sample` while leaving the default
`input_data = None` in place always fails with the AttributeError from
dereferencing `None.dtype` — not with the documented type-mismatch
error — and the class-label check is never reached: the outcome is the
same for every label, negative or not. -/
theorem C10_none_input_data (n : String) (label : Int) :
    Sample.init n label none = .error (.attributeError noneDtypeMsg) := rfl

/-- C3: `floatify` on an n-row structured array restricted to the k
fields named in `feature_list` yields an n-by-k float64 matrix in which
column j equals the source field named `feature_list[j]`; being a Lean
`def`, the conversion is a pure function of its two inputs. -/
theorem C3_record_conversion (sa : StructuredArray) (fl : List String)
    (hres : sa.fields = fl) :
    (floatify sa fl).map (·.dtype) = some DType.float64 ∧
    (floatify sa fl).map (fun m => m.rows.length) = some sa.rows.length ∧
    (floatify sa fl).map
      (fun m => m.rows.all (fun row => row.length = fl.length)) = some true ∧
    ∀ j, j < fl.length →
      (floatify sa fl).map (fun m => m.col j) =
        some (sa.fieldCol (fl.getD j "")) := by
  subst hres
  have hall : sa.fields.all (fun n => sa.fields.contains n) = true := by
    simp [List.all_eq_true]
  refine ⟨?_, ?_, ?_, ?_⟩
  · simp [floatify, hall]
  · simp [floatify, hall]
  · simp [floatify, hall, List.all_eq_true]
  · intro j hj
    simp only [floatify, hall, if_true, Option.map_some', NDMatrix.col,
      StructuredArray.fieldCol, List.map_map, Option.some.injEq]
    refine List.map_congr_left ?_
    intro row hrow
    simp only [Function.comp]
    rw [List.getD_eq_getElem _ _ (by simpa using hj), List.getElem_map,
      List.getD_eq_getElem _ _ hj]

theorem C3_witness :
    (floatify exSel (["pt", "eta"])).map (fun m => m.rows.length) = some 3 ∧
    (floatify exSel (["pt", "eta"])).map (fun m => NDMatrix.col m 0) =
      some (exSel.fieldCol ((["pt", "eta"]).getD 0 "")) :=
  have h := C3_record_conversion exSel (["pt", "eta"]) rfl
  ⟨h.2.1, h.2.2.2 0 (by decide)⟩

/-- C1: for every valid scaling table (no duplicate names) and every
exclusion set, catalog construction completes without an exception and
the alignment invariant holds: `feature_list`, `mean`, `scale`, `var` and
`scaling_dict` all have the same length, and for every index i the dict
entry at key `feature_list[i]` is exactly the record
`{mean[i], scale[i], var[i]}`. -/
theorem C1_catalog_invariant (ds : List ScalingRecord) (ign : List String)
    (hnodup : (ds.map (·.name)).Nodup) :
    (DataScaler.init ds ign).2 = none ∧
    ((DataScaler.init ds ign).1.mean.toList.length =
        (DataScaler.init ds ign).1.feature_list.length ∧
      (DataScaler.init ds ign).1.scale.toList.length =
        (DataScaler.init ds ign).1.feature_list.length ∧
      (DataScaler.init ds ign).1.var.toList.length =
        (DataScaler.init ds ign).1.feature_list.length ∧
      (DataScaler.init ds ign).1.scaling_dict.length =
        (DataScaler.init ds ign).1.feature_list.length) ∧
    ∀ i, i < (DataScaler.init ds ign).1.feature_list.length →
      dictGet? ((DataScaler.init ds ign).1.feature_list.getD i "")
          (DataScaler.init ds ign).1.scaling_dict =
        some ⟨(DataScaler.init ds ign).1.mean.toList.getD i 0,
              (DataScaler.init ds ign).1.scale.toList.getD i 0,
              (DataScaler.init ds ign).1.var.toList.getD i 0⟩ := by
  have hnr : ((ds.filter (fun x => x.name ∉ ign)).map (·.name)).Nodup := by
    rw [map_name_filter]
    exact hnodup.filter _
  have hdict : (ds.filter (fun x => x.name ∉ ign)).foldl
      (fun dd x => dictInsert x.name ⟨x.mean, x.scale, x.var⟩ dd) [] =
      (ds.filter (fun x => x.name ∉ ign)).map
        (fun x => (x.name, (⟨x.mean, x.scale, x.var⟩ : ScalingParams))) := by
    simpa using foldl_insert_fresh (ds.filter (fun x => x.name ∉ ign)) []
      hnr (fun x _ => rfl)
  rw [init_eq]
  simp only [PyVec.toList, hdict, ← map_name_filter ds ign]
  refine ⟨trivial, ⟨by simp, by simp, by simp, by simp⟩, ?_⟩
  intro i hi
  have hilen : i < (ds.filter (fun x => x.name ∉ ign)).length := by
    simpa using hi
  rw [List.getD_eq_getElem _ "" (by simpa using hilen), List.getElem_map,
    List.getD_eq_getElem _ 0 (by simpa using hilen : i <
      ((ds.filter (fun x => x.name ∉ ign)).map (·.mean)).length),
    List.getElem_map,
    List.getD_eq_getElem _ 0 (by simpa using hilen : i <
      ((ds.filter (fun x => x.name ∉ ign)).map (·.scale)).length),
    List.getElem_map,
    List.getD_eq_getElem _ 0 (by simpa using hilen : i <
      ((ds.filter (fun x => x.name ∉ ign)).map (·.var)).length),
    List.getElem_map]
  exact dictGet?_map_of_nodup _ hnr _ (List.getElem_mem hilen)

theorem C1_witness :
    (DataScaler.init exScaling (["eventweight"])).2 = none ∧
    dictGet? ((DataScaler.init exScaling (["eventweight"])).1.feature_list.getD 0 "")
        (DataScaler.init exScaling (["eventweight"])).1.scaling_dict =
      some ⟨(DataScaler.init exScaling (["eventweight"])).1.mean.toList.getD 0 0,
            (DataScaler.init exScaling (["eventweight"])).1.scale.toList.getD 0 0,
            (DataScaler.init exScaling (["eventweight"])).1.var.toList.getD 0 0⟩ :=
  have h := C1_catalog_invariant exScaling (["eventweight"]) (by decide)
  ⟨h.1, h.2.2 0 (by decide)⟩

/-- C2: excluding a feature name present in the source removes it from
`feature_list` and from `scaling_dict`, and the three vectors hold
exactly the retained records' values (so nothing of the excluded record
remains in them), while the name stays in `raw_feature_list`;
`feature_list` is the order-preserving filter of `raw_feature_list`, in
particular a sublist of it. -/
theorem C2_exclusion (ds : List ScalingRecord) (ign : List String)
    (n : String) (hin : n ∈ ds.map (·.name)) (hex : n ∈ ign) :
    n ∉ (DataScaler.init ds ign).1.feature_list ∧
    dictGet? n (DataScaler.init ds ign).1.scaling_dict = none ∧
    (DataScaler.init ds ign).1.mean.toList =
      (ds.filter (fun x => x.name ∉ ign)).map (·.mean) ∧
    (DataScaler.init ds ign).1.scale.toList =
      (ds.filter (fun x => x.name ∉ ign)).map (·.scale) ∧
    (DataScaler.init ds ign).1.var.toList =
      (ds.filter (fun x => x.name ∉ ign)).map (·.var) ∧
    n ∈ (DataScaler.init ds ign).1.raw_feature_list ∧
    (DataScaler.init ds ign).1.feature_list =
      (DataScaler.init ds ign).1.raw_feature_list.filter (fun x => x ∉ ign) ∧
    (DataScaler.init ds ign).1.feature_list.Sublist
      (DataScaler.init ds ign).1.raw_feature_list := by
  rw [init_eq]
  simp only [PyVec.toList]
  refine ⟨?_, ?_, trivial, trivial, trivial, hin, trivial, List.filter_sublist _⟩
  · simp [List.mem_filter, hex]
  · have habs : n ∉ (ds.filter (fun x => x.name ∉ ign)).map (·.name) := by
      rw [map_name_filter]
      simp [List.mem_filter, hex]
    rw [dictGet?_foldl_of_absent n _ [] habs]
    rfl

theorem C2_witness :
    ("eventweight") ∉ (DataScaler.init exScaling (["eventweight"])).1.feature_list ∧
    dictGet? ("eventweight")
      (DataScaler.init exScaling (["eventweight"])).1.scaling_dict = none ∧
    ("eventweight") ∈ (DataScaler.init exScaling (["eventweight"])).1.raw_feature_list :=
  have h := C2_exclusion exScaling (["eventweight"]) ("eventweight")
    (by decide) (by decide)
  ⟨h.1, h.2.1, h.2.2.2.2.2.1⟩

/-- C5: for a catalog built from a duplicate-free table with an exclusion
set, `get_params` on an excluded or never-present name fails with the
KeyError-style message, and on a retained name returns exactly the stored
mean/scale/var triad of that feature's source record, without raising. -/
theorem C5_get_params (ds : List ScalingRecord) (ign : List String)
    (hnodup : (ds.map (·.name)).Nodup) :
    (∀ n, n ∉ (ds.filter (fun x => x.name ∉ ign)).map (·.name) →
      (DataScaler.init ds ign).1.get_params n =
        .error (unknownFeatureMsg n)) ∧
    (∀ r ∈ ds, r.name ∉ ign →
      (DataScaler.init ds ign).1.get_params r.name =
        .ok ⟨r.mean, r.scale, r.var⟩) := by
  have hnr : ((ds.filter (fun x => x.name ∉ ign)).map (·.name)).Nodup := by
    rw [map_name_filter]
    exact hnodup.filter _
  have hdict : (ds.filter (fun x => x.name ∉ ign)).foldl
      (fun dd x => dictInsert x.name ⟨x.mean, x.scale, x.var⟩ dd) [] =
      (ds.filter (fun x => x.name ∉ ign)).map
        (fun x => (x.name, (⟨x.mean, x.scale, x.var⟩ : ScalingParams))) := by
    simpa using foldl_insert_fresh (ds.filter (fun x => x.name ∉ ign)) []
      hnr (fun x _ => rfl)
  constructor
  · intro n hn
    rw [init_eq]
    unfold DataScaler.get_params
    simp only
    rw [dictGet?_foldl_of_absent n _ [] hn]
    rfl
  · intro r hr hret
    rw [init_eq]
    unfold DataScaler.get_params
    simp only [hdict]
    rw [dictGet?_map_of_nodup _ hnr r (List.mem_filter.mpr ⟨hr, by simpa using hret⟩)]

theorem C5_witness :
    (DataScaler.init exScaling (["eventweight"])).1.get_params ("eventweight") =
      .error (unknownFeatureMsg ("eventweight")) ∧
    (DataScaler.init exScaling (["eventweight"])).1.get_params ("pt") =
      .ok ⟨50, 10, 100⟩ :=
  have h := C5_get_params exScaling (["eventweight"]) (by decide)
  ⟨h.1 ("eventweight") (by decide),
   h.2 ⟨"pt", 50, 10, 100⟩ (by decide) (by decide)⟩

/-- C9: calling `load` a second time, on a catalog already built by a
first construction, does not cleanly duplicate entries: as soon as the
loop reaches a retained record it raises the ndarray AttributeError
(the accumulators were converted to fixed arrays, which do not support
appending), and by then `raw_feature_list` and `feature_list` have
already been reassigned to the new source's values. -/
theorem C9_second_load (ds0 ds : List ScalingRecord) (ign0 ign : List String)
    (r : ScalingRecord) (hr : r ∈ ds) (hret : r.name ∉ ign) :
    ((DataScaler.init ds0 ign0).1.load ds ign).2 = some ndarrayNoAppendMsg ∧
    ((DataScaler.init ds0 ign0).1.load ds ign).1.raw_feature_list =
      ds.map (·.name) ∧
    ((DataScaler.init ds0 ign0).1.load ds ign).1.feature_list =
      (ds.map (·.name)).filter (fun x => x ∉ ign) := by
  refine load_arr_error _ ((ds0.filter (fun x => x.name ∉ ign0)).map (·.mean))
    ?_ ds ign r hr hret
  rw [init_eq]

theorem C9_witness :
    (((DataScaler.init exScaling (["eventweight"])).1.load exScaling
        (["eventweight"])).2 = some ndarrayNoAppendMsg) ∧
    (((DataScaler.init exScaling (["eventweight"])).1.load exScaling
        (["eventweight"])).1.raw_feature_list = exScaling.map (·.name)) ∧
    (((DataScaler.init exScaling (["eventweight"])).1.load exScaling
        (["eventweight"])).1.feature_list =
      (exScaling.map (·.name)).filter (fun x => x ∉ (["eventweight"]))) :=
  C9_second_load exScaling exScaling (["eventweight"]) (["eventweight"])
    ⟨"pt", 50, 10, 100⟩ (by decide) (by decide)

/-- C6: end-to-end on the concrete container of the spec (scaling table
pt/eta/eventweight, one sample group "signal" with `training_label = 1`
over 3 events): the load succeeds, the catalog's `feature_list` is
`["pt", "eta"]` (eventweight removed by the loader's fixed exclusion
set), and exactly one `Sample` is produced, named "signal", with class
label 1 and a data matrix of shape (3, 2). -/
theorem C6_end_to_end :
    (load_input_file (some exFile)).toOption.map (fun res =>
      (res.2.feature_list,
        res.1.map (fun s =>
          (s.name, s.class_label, s.data.rows.length,
            s.data.rows.all (fun row => row.length = 2))))) =
      some ((["pt", "eta"]), [(("signal"), (1 : Int), 3, true)]) := by
  decide

/-- C7: a container missing the required top-level `samples` group makes
the load terminate with an error before constructing any sample, so no
(partial) sample sequence is ever returned; likewise a missing `scaling`
group terminates the load immediately. -/
theorem C7_missing_groups (f : H5File) :
    (f.scaling_data = none →
      load_input_file (some f) = .error LoadError.missingScaling) ∧
    (∀ sd, f.scaling_data = some sd → f.samples = none →
      load_input_file (some f) = .error LoadError.missingSamples) := by
  constructor
  · intro h
    simp [load_input_file, h]
  · intro sd hsd hsam
    simp only [load_input_file, hsd, hsam]
    rw [init_eq]

theorem C7_witness :
    load_input_file (some ⟨none, none⟩) = .error LoadError.missingScaling ∧
    load_input_file (some ⟨some exScaling, none⟩) =
      .error LoadError.missingSamples :=
  ⟨(C7_missing_groups ⟨none, none⟩).1 rfl,
   (C7_missing_groups ⟨some exScaling, none⟩).2 exScaling rfl rfl⟩
